import Mathlib

/-!
Verification of the retry/backoff and pipeline orchestration logic of the
compliments-of-the-chef automation scripts, against the natural-language
specification. Definitions are shallow embeddings of the JavaScript source:
HTTP calls and other collaborator effects are injected as per-attempt
outcome functions, machine state is passed explicitly, and every fallible
path is an `Except`.
-/

set_option maxRecDepth 4000

/-- Trace of one run of a retry loop: the final outcome (the value returned,
or the error thrown after the loop), the number of loop iterations executed
(each iteration performs the wrapped operation once), and the list of delays
slept between attempts, in order. -/
instance {ε α : Type} [DecidableEq ε] [DecidableEq α] : DecidableEq (Except ε α) := fun a b =>
  match a, b with
  | .ok x, .ok y =>
    if h : x = y then isTrue (by rw [h]) else isFalse (by intro hc; cases hc; exact h rfl)
  | .error x, .error y =>
    if h : x = y then isTrue (by rw [h]) else isFalse (by intro hc; cases hc; exact h rfl)
  | .ok _, .error _ => isFalse (by intro hc; cases hc)
  | .error _, .ok _ => isFalse (by intro hc; cases hc)

structure RunTrace (ε α : Type) where
  result : Except ε α
  calls : Nat
  sleeps : List ℚ
deriving Repr, DecidableEq

/-- Core of the retry loop shared (copy-pasted, with identical structure) by
`createProductFromTemplate`, `createSingleProduct`, `generateProductText`,
`uploadMockupToDropbox`, `updateProductWithAssets` and the Dropbox-based
`uploadFileToPrintful`:

`for (attempt = 1; attempt <= maxRetries; attempt++) { try { op } catch (e)
{ lastError = e; if (attempt < maxRetries) { sleep(delay); delay *= 1.5 } } }
throw lastError || fallback`.

`remaining` counts the attempts still allowed including the current one, so
the loop is entered with `remaining = maxRetries` and `attempt = 1`; `m` is
the delay multiplier (the source hardcodes 1.5). Every caught error is
retried unconditionally. -/
def retryGo {ε α : Type} (op : Nat → Except ε α) (fb : ε) (m : ℚ) :
    Nat → Nat → ℚ → Option ε → RunTrace ε α
  | 0, _, _, le => ⟨.error (le.getD fb), 0, []⟩
  | rem + 1, attempt, delay, _ =>
    match op attempt with
    | .ok a => ⟨.ok a, 1, []⟩
    | .error e =>
      if rem = 0 then ⟨.error e, 1, []⟩
      else
        let t := retryGo op fb m rem (attempt + 1) (delay * m) (some e)
        ⟨t.result, t.calls + 1, delay :: t.sleeps⟩

/-- The retry-with-backoff executor pattern of the source scripts: up to
`maxRetries` attempts, a sleep of the current delay between consecutive
attempts, and the delay multiplied by 1.5 after each sleep, exactly as in
`createProductFromTemplate` (automatePrintfulProductFromTemplate.js lines
47-96) and its sibling functions. -/
def retryWithBackoff {ε α : Type} (op : Nat → Except ε α) (fb : ε)
    (maxRetries : Nat) (retryDelay : ℚ) : RunTrace ε α :=
  retryGo op fb (3 / 2) maxRetries 1 retryDelay none

/-- Whether an injected collaborator outcome is a success (JS: the awaited
call returned rather than threw). -/
def exIsOk {ε α : Type} : Except ε α → Bool
  | .ok _ => true
  | .error _ => false

/-- The list of delays `[d, d*m, d*m^2, ...]` of length `r`; the schedule of
sleeps produced by an always-failing run of the retry loop. -/
def geomList (d m : ℚ) : Nat → List ℚ
  | 0 => []
  | r + 1 => d :: geomList (d * m) m r

/-- Retry executor for `createProductFromTemplate`
(automatePrintfulProductFromTemplate.js lines 47-96): the per-attempt
operation models the POST to the store-products endpoint, returning the
created product id on success.  The fallback message is the one thrown when
the loop exits with no recorded error. -/
def createProductFromTemplate (resp : Nat → Except String Nat)
    (maxRetries : Nat) (retryDelay : ℚ) : RunTrace String Nat :=
  retryWithBackoff resp "Failed to create product after multiple attempts" maxRetries retryDelay

/-! ## String and character utilities

These model the JavaScript string operations used by the scripts: `trim`,
`split(',')`, first-occurrence `replace`, and the specific regular
expressions appearing in the source, with the regex engine's
leftmost-match and backtracking behaviour made explicit. -/

/-- Whitespace as matched by the `\s` regex class and by `trim`, restricted
to the ASCII whitespace characters that can occur in the modelled data. -/
def isWsChar (c : Char) : Bool :=
  c = ' ' || c = '\t' || c = '\n' || c = '\r' || c = '\x0b' || c = '\x0c'

/-- Model of `String.prototype.trim`: strip leading and trailing whitespace. -/
def trimChars (cs : List Char) : List Char :=
  ((cs.dropWhile isWsChar).reverse.dropWhile isWsChar).reverse

/-- Model of `split(',')`: split a character list on commas; splitting the
empty list yields `[[]]`, matching `"".split(',')` returning `[""]`. -/
def splitCommaGo (cur : List Char) : List Char → List (List Char)
  | [] => [cur.reverse]
  | c :: cs => if c = ',' then cur.reverse :: splitCommaGo [] cs else splitCommaGo (c :: cur) cs

/-- Model of `String.prototype.replace` with a plain-string pattern: replace
the first occurrence of `pat` (scanning left to right) and leave the rest
untouched. -/
def replaceFirstList (pat repl : List Char) : List Char → List Char
  | [] => []
  | c :: cs =>
    if pat.isPrefixOf (c :: cs) then repl ++ (c :: cs).drop pat.length
    else c :: replaceFirstList pat repl cs

/-- String wrapper for `replaceFirstList`. -/
def replaceFirstStr (s pat repl : String) : String :=
  String.mk (replaceFirstList pat.data repl.data s.data)

/-- Substring containment, modelling `String.prototype.includes`. -/
def containsSub (needle : List Char) : List Char → Bool
  | [] => needle.isEmpty
  | c :: cs => needle.isPrefixOf (c :: cs) || containsSub needle cs

/-! ## The field-extraction regex of `generateProductText`

`extractField(label, text)` in automatePrintfulProductFromTemplate.js lines
180-184 (duplicated in automatePrintfulProduct.js) matches the dotAll regex
`label:\s*(.+?)(?=\n\n|\n[A-Z]|$)` against `text` and returns the trimmed
first capture, or `""` when there is no match.  The engine scans start
positions left to right; at each occurrence of `label:` it matches `\s*`
greedily, then grows the lazy group one character at a time until the
lookahead (a blank line, a newline followed by an ASCII capital, or the end
of input) succeeds, backtracking the whitespace run on failure. -/

/-- The lookahead `(?=\n\n|\n[A-Z]|$)` of the extraction regex. -/
def fieldStop : List Char → Bool
  | [] => true
  | '\n' :: '\n' :: _ => true
  | '\n' :: c :: _ => c.isUpper
  | _ => false

/-- Lazy expansion of `(.+?)` up to the first position where `fieldStop`
holds; fails when no position works (the group must consume at least one
character). -/
def lazyGo (takenRev : List Char) : List Char → Option (List Char)
  | [] => none
  | c :: cs =>
    if fieldStop cs then some (c :: takenRev).reverse else lazyGo (c :: takenRev) cs

/-- Backtracking over the greedy `\s*`: try the maximal whitespace run
first, then progressively shorter runs. -/
def fieldCaptureW (rest : List Char) : Nat → Option (List Char)
  | 0 => lazyGo [] rest
  | w + 1 =>
    match lazyGo [] (rest.drop (w + 1)) with
    | some cap => some cap
    | none => fieldCaptureW rest w

/-- Length of the leading whitespace run. -/
def wsCount : List Char → Nat
  | [] => 0
  | c :: cs => if isWsChar c then wsCount cs + 1 else 0

/-- Attempt of the extraction regex at one start position: the characters
after `label:` are `rest`. -/
def fieldCapture (rest : List Char) : Option (List Char) :=
  fieldCaptureW rest (wsCount rest)

/-- Scan start positions left to right: at each occurrence of `pat`, run
`capF` on the remainder, moving one character forward on failure.  Shared by
the extraction regexes of `generateProductText` and of the manual fallback
in `generateListingFromOpenRouter`. -/
def scanFirst (pat : List Char) (capF : List Char → Option (List Char)) :
    List Char → Option (List Char)
  | [] => none
  | c :: rest =>
    if pat.isPrefixOf (c :: rest) then
      match capF ((c :: rest).drop pat.length) with
      | some cap => some cap
      | none => scanFirst pat capF rest
    else scanFirst pat capF rest

/-- Model of `extractField` in automatePrintfulProductFromTemplate.js lines 180-184:
first match of `label:\s*(.+?)(?=\n\n|\n[A-Z]|$)` (dotAll), capture trimmed,
or `""` on no match. -/
def extractField (label text : String) : String :=
  match scanFirst (label.data ++ [':']) fieldCapture text.data with
  | some cap => String.mk (trimChars cap)
  | none => ""

/-- Model of `extractTags` in automatePrintfulProductFromTemplate.js lines 191-197:
split the extracted `Tags` field on commas, trim each piece, and drop empty
pieces. -/
def extractTags (text : String) : List String :=
  ((splitCommaGo [] (extractField "Tags" text).data).map
    (fun t => String.mk (trimChars t))).filter (fun s => s.length != 0)

/-! ## Content generator `generateProductText`

automatePrintfulProductFromTemplate.js lines 105-172 (duplicated in
automatePrintfulProduct.js lines 32-99).  Each attempt models the POST to
the completion endpoint; its injected outcome is the HTTP-level result.  A
successful response is parsed with `extractField`/`extractTags` and then
validated; a validation failure is thrown inside the `try`, so it is caught
by the same `catch` as a transport failure. -/

/-- Parsed marketing copy: the structured data built at lines 145-149. -/
structure ProductText where
  title : String
  description : String
  tags : List String
deriving Repr, DecidableEq

/-- Injected per-attempt outcome of the completion-endpoint call. -/
inductive GenResponse where
  /-- Case `!response.ok`: the endpoint answered with an error status. -/
  | httpError
  /-- Missing `choices[0].message.content` in the response body. -/
  | badShape
  /-- A successful response whose message content is `s`. -/
  | content (s : String)
deriving Repr, DecidableEq

/-- Errors thrown inside one attempt of `generateProductText`. -/
inductive GenErr where
  /-- Error `OpenRouter API error`: thrown when `!response.ok`. -/
  | apiError
  /-- Error `Invalid response format from OpenRouter`. -/
  | invalidFormat
  /-- Error `Generated content is missing required fields`: the parsed result
  failed validation (empty title, empty description, or no tags). -/
  | missingFields (r : ProductText)
  /-- Generic error carrying a message, used for the post-loop fallback. -/
  | other (msg : String)
deriving Repr, DecidableEq

/-- The parse at lines 145-149: extract title, description and tags from
the message content. -/
def parseProductText (s : String) : ProductText :=
  ⟨extractField "Title" s, extractField "Description" s, extractTags s⟩

/-- One attempt body of `generateProductText` (lines 109-156): transport
and shape errors throw; otherwise the content is parsed and the validation
at lines 152-154 throws when a required field is missing. -/
def generateAttempt (resp : GenResponse) : Except GenErr ProductText :=
  match resp with
  | .httpError => .error .apiError
  | .badShape => .error .invalidFormat
  | .content s =>
    let r := parseProductText s
    if r.title = "" || r.description = "" || r.tags.isEmpty then .error (.missingFields r)
    else .ok r

/-- Function `generateProductText` (lines 105-172): the attempt body wrapped in the
common retry loop; every caught error, including a validation failure, is
retried until `maxRetries` attempts are exhausted. -/
def generateProductText (resp : Nat → GenResponse) (maxRetries : Nat) (retryDelay : ℚ) :
    RunTrace GenErr ProductText :=
  retryWithBackoff (fun k => generateAttempt (resp k))
    (.other "Failed to generate product text after multiple attempts") maxRetries retryDelay

/-! ## Asset uploader `uploadMockupToDropbox`

automatePrintfulProductFromTemplate.js lines 206-289.  One attempt uploads
the file (mode `overwrite`), creates a shared link, and on the
`shared_link_already_exists` conflict recovers by listing the existing
shared links for the path and reusing the first one; the resulting URL is
rewritten into a direct-download link.  The attempt body is wrapped in the
common unconditional retry loop. -/

/-- Outcome of `sharingCreateSharedLinkWithSettings` for one attempt. -/
inductive LinkErr where
  /-- The error whose `error_summary` contains `shared_link_already_exists`. -/
  | alreadyExists
  /-- Any other link-creation error, carrying its message. -/
  | otherLinkErr (msg : String)
deriving Repr, DecidableEq

/-- Injected Dropbox collaborator behaviour for one attempt: the upload
outcome (`path_display` on success — file reading errors are folded in),
the link-creation outcome, and the link list returned by
`sharingListSharedLinks` for the uploaded path. -/
structure DropboxEnv where
  upload : Except String String
  createLink : Except LinkErr String
  listLinks : Except String (List String)
deriving Repr, DecidableEq

/-- Lines 267-269: rewrite the shared link into a direct link by replacing
the host and stripping the `?dl=0` suffix (first occurrence each, as with
the string form of `String.prototype.replace`). -/
def directLink (url : String) : String :=
  replaceFirstStr (replaceFirstStr url "www.dropbox.com" "dl.dropboxusercontent.com") "?dl=0" ""

/-- One attempt body of `uploadMockupToDropbox` (lines 210-272): upload,
create the shared link, and on the already-exists conflict fetch the
existing links, succeeding with the first one or throwing `Failed to
retrieve existing shared link` when the list is empty. -/
def dropboxAttempt (env : DropboxEnv) : Except String String :=
  match env.upload with
  | .error e => .error e
  | .ok _pathDisplay =>
    match env.createLink with
    | .ok url => .ok (directLink url)
    | .error .alreadyExists =>
      match env.listLinks with
      | .error e => .error e
      | .ok [] => .error "Failed to retrieve existing shared link"
      | .ok (u :: _) => .ok (directLink u)
    | .error (.otherLinkErr e) => .error e

/-- Function `uploadMockupToDropbox` (lines 206-289): the attempt body in the common
retry loop, with the post-loop fallback message of line 288. -/
def uploadMockupToDropbox (env : Nat → DropboxEnv) (maxRetries : Nat) (retryDelay : ℚ) :
    RunTrace String String :=
  retryWithBackoff (fun k => dropboxAttempt (env k))
    "Failed to upload to Dropbox after multiple attempts" maxRetries retryDelay

/-! ## Credential resolver `getStoreCredentials`

createPrintfulProduct.js lines 18-32, identical copy in
automatePrintfulProductFromTemplate.js lines 23-37.  A pure function of the
loaded environment: `'etsy'` selects the Etsy-linked pair of variables and
every other argument selects the manual-store pair; an absent variable
simply flows through as `undefined`. -/

/-- The four environment variables the resolver reads; `none` models an
unset variable (`undefined` in JS). -/
structure CredEnv where
  printfulApiKey : Option String
  printfulStoreId : Option String
  etsyApiKey : Option String
  etsyStoreId : Option String
deriving Repr, DecidableEq

/-- The object returned by `getStoreCredentials`; `apiKey`/`storeId` are
`none` exactly when the corresponding environment variable is unset. -/
structure StoreCredentials where
  apiKey : Option String
  storeId : Option String
  name : String
deriving Repr, DecidableEq

/-- Function `getStoreCredentials` (createPrintfulProduct.js lines 18-32): branch on
the store type string, with every non-`'etsy'` value taking the `else`
branch. -/
def getStoreCredentials (env : CredEnv) (storeType : String) : StoreCredentials :=
  if storeType = "etsy" then ⟨env.etsyApiKey, env.etsyStoreId, "Etsy-linked store"⟩
  else ⟨env.printfulApiKey, env.printfulStoreId, "Manual/API store"⟩

/-! ## Direct uploader `printfulUploader.js`

The `uploadFileToPrintful` of printfulUploader.js (lines 273-335): unlike
the other retry loops, its `catch` classifies the error — only HTTP 5xx
responses and HTTP 429 are retried (and only while attempts remain); any
other error breaks out of the loop immediately and is rethrown.  The
oversized-file check at lines 284-287 throws before the network call is
made. -/

/-- Errors thrown inside one attempt of the direct uploader. -/
inductive PErr where
  /-- Error `File size exceeds Printful's 200MB limit` (line 286). -/
  | sizeLimit
  /-- An axios error carrying a response with the given HTTP status. -/
  | httpStatus (status : Nat)
  /-- An error without an HTTP response (network failure and the like). -/
  | noResponse (msg : String)
  /-- Error `Invalid response from Printful API`: missing `result.url`. -/
  | invalidResponse
  /-- Models JS rethrowing an undefined `lastError` when the loop body
  never ran. -/
  | jsUndefined
deriving Repr, DecidableEq

/-- Line 314: `error.response && error.response.status >= 500`. -/
def isServerError : PErr → Bool
  | .httpStatus s => decide (500 ≤ s)
  | _ => false

/-- Line 315: `error.response && error.response.status === 429`. -/
def isRateLimitError : PErr → Bool
  | .httpStatus s => s == 429
  | _ => false

/-- One attempt body of the direct uploader (lines 277-309): the size guard
throws before the upload; otherwise the injected network outcome decides. -/
def printfulAttempt (fileSize : Nat) (op : Nat → Except PErr String) (k : Nat) :
    Except PErr String :=
  if 200 * 1024 * 1024 < fileSize then .error .sizeLimit else op k

/-- The classified retry loop of printfulUploader.js (lines 276-334):
retry with backoff only on server/rate-limit errors while attempts remain,
break otherwise, and throw the last error after the loop. -/
def printfulGo (body : Nat → Except PErr String) :
    Nat → Nat → ℚ → Option PErr → RunTrace PErr String
  | 0, _, _, le => ⟨.error (le.getD .jsUndefined), 0, []⟩
  | rem + 1, attempt, delay, _ =>
    match body attempt with
    | .ok url => ⟨.ok url, 1, []⟩
    | .error e =>
      if (isServerError e || isRateLimitError e) && rem != 0 then
        let t := printfulGo body rem (attempt + 1) (delay * (3 / 2)) (some e)
        ⟨t.result, t.calls + 1, delay :: t.sleeps⟩
      else ⟨.error e, 1, []⟩

namespace PrintfulUploader

/-- Function `uploadFileToPrintful` of printfulUploader.js (lines 273-335): the size
guard plus injected upload outcome, run through the classified retry loop. -/
def uploadFileToPrintful (fileSize : Nat) (op : Nat → Except PErr String)
    (maxRetries : Nat) (retryDelay : ℚ) : RunTrace PErr String :=
  printfulGo (printfulAttempt fileSize op) maxRetries 1 retryDelay none

end PrintfulUploader

/-! ## Pipeline sequencer, template-creation variant of uploadToPrintful.js

The variant whose `processFile` saves manual-template metadata and
optionally attempts a product sync (`--attempt-sync`).  Per-unit
collaborator outcomes are injected; `processFile`'s outer `catch` (lines
784-788) converts any escaped error into a `null` result so the caller's
loop continues with the next file. -/

namespace TemplatePipeline

/-- Listing content returned by `generateListing` for one design word. -/
structure Listing where
  title : String
  description : String
  tags : List String
deriving Repr, DecidableEq

/-- Command-line flags of the script: `--dry-run`, the default
template-only mode (`TEMPLATE_ONLY = !args.includes('--attempt-sync')`),
and `--sync-only`. -/
structure Flags where
  dryRun : Bool
  templateOnly : Bool
  syncOnly : Bool
deriving Repr, DecidableEq

/-- Injected collaborator outcomes for one design unit: the listing
generation call, the asset upload, and the product-sync call. -/
structure UnitOutcome where
  word : String
  listing : Except String Listing
  upload : Except String String
  sync : Except String String
deriving Repr, DecidableEq

/-- Terminal result of `processFile` for one unit (the non-`null` shapes
returned at lines 632, 746, 763, 777). -/
inductive FileResult where
  /-- Result `{ dryRun: true, word, listingContent }` (line 632). -/
  | dryRunRes (word : String) (lc : Listing)
  /-- Result `{ templateInfo, word }` (line 746): template-only success. -/
  | templateInfoRes (word : String)
  /-- Result `{ templateOnly: true, word }` (line 777): sync failed, template
  metadata kept. -/
  | templateOnlyRes (word : String)
  /-- Result `{ product, word }` (line 763): sync succeeded. -/
  | productRes (word : String) (productId : String)
deriving Repr, DecidableEq

/-- Body of `processFile` (lines 608-783) before the outer `catch`:
listing-generation failures escape; an upload failure is caught at lines
694-706 and replaced by a fallback URL, so the unit continues; template
creation (lines 405-425) always succeeds; the sync attempt's failure is
caught at lines 764-778 and converted into a template-only result. -/
def processFileTry (fl : Flags) (u : UnitOutcome) : Except String (Option FileResult) :=
  match u.listing with
  | .error e => .error e
  | .ok lc =>
    if fl.dryRun then .ok (some (.dryRunRes u.word lc))
    else
      if fl.templateOnly && fl.syncOnly then .ok none
      else if !fl.syncOnly && fl.templateOnly then .ok (some (.templateInfoRes u.word))
      else
        match u.sync with
        | .ok pid => .ok (some (.productRes u.word pid))
        | .error _ => .ok (some (.templateOnlyRes u.word))

/-- Function `processFile` with its outer `catch` (lines 784-788): any escaped error
is logged and the function returns `null`. -/
def processFile (fl : Flags) (u : UnitOutcome) : Option FileResult :=
  match processFileTry fl u with
  | .ok r => r
  | .error _ => none

/-- Does a result count towards `templatesCreated` in the summary (line
948: `r.templateInfo || r.templateOnly`)? -/
def isTemplateResult : FileResult → Bool
  | .templateInfoRes _ => true
  | .templateOnlyRes _ => true
  | _ => false

/-- Does a result count towards `syncedCount` (line 959: `r.product`)? -/
def isProductResult : FileResult → Bool
  | .productRes _ _ => true
  | _ => false

/-- End-of-run report assembled by `main` (lines 870-986): per-unit step
results in input order, the printed summary counters, whether the summary
block was reached at all, and the process exit code. -/
structure RunReport where
  found : Nat
  perUnit : List (Option FileResult)
  templatesCreated : Nat
  templatesFailed : Nat
  synced : Nat
  summaryPrinted : Bool
  exitCode : Nat
deriving Repr, DecidableEq

/-- Function `main` (lines 870-986) with file enumeration and configuration checks
assumed successful (their failures hit the top-level `catch` and exit 1,
outside the per-unit scope of this model).  In dry-run mode the whole
processing block is inside the `else` of the `isDryRun` check (lines
890-981), so no file is processed and no summary is printed.  Otherwise
every file is passed through `processFile`, non-`null` results are
collected, and the summary counts templates created among them, with the
failed count printed as `files.length - templatesCreated`. -/
def main (fl : Flags) (units : List UnitOutcome) : RunReport :=
  if fl.dryRun then
    ⟨0, [], 0, 0, 0, false, 0⟩
  else
    let perUnit := units.map (processFile fl)
    let results := perUnit.filterMap id
    let templatesCreated := results.countP isTemplateResult
    ⟨units.length, perUnit, templatesCreated, units.length - templatesCreated,
      results.countP isProductResult, true, 0⟩

end TemplatePipeline

/-! ## Pipeline sequencer, Etsy-sync variant of uploadToPrintful.js

The Dropbox-based variant.  Its `main` (lines 776-880) does run the
processing loop and print the summary in dry-run mode, but `processFile`
(lines 586-695) calls `generateListing` — a real completion-endpoint
request — before the dry-run short-circuit at line 604, so each unit still
issues one outbound OpenRouter call in a dry run, while the Printful and
Dropbox calls are skipped. -/

namespace DropboxPipeline

/-- Outbound network calls issued while processing, by collaborator. -/
structure NetCalls where
  openrouter : Nat
  printful : Nat
  dropbox : Nat
deriving Repr, DecidableEq

/-- Pointwise sum of call counters. -/
def addCalls (a b : NetCalls) : NetCalls :=
  ⟨a.openrouter + b.openrouter, a.printful + b.printful, a.dropbox + b.dropbox⟩

/-- Injected outcome of the `generateListing` call for one unit. -/
structure UnitOutcome where
  word : String
  listing : Except String TemplatePipeline.Listing
deriving Repr, DecidableEq

/-- Result of one dry-run `processFile` step: the `{ dryRun: true, word,
listingContent }` object of line 610, or `null` from the outer catch. -/
structure DryResult where
  word : String
  lc : TemplatePipeline.Listing
deriving Repr, DecidableEq

/-- The dry-run path of `processFile` (lines 586-611): `generateListing` is
always called (one OpenRouter request); on its failure the outer `catch`
(lines 690-694) returns `null`; otherwise the dry-run branch returns before
any Printful or Dropbox call. -/
def processFileDryRun (u : UnitOutcome) : Option DryResult × NetCalls :=
  match u.listing with
  | .error _ => (none, ⟨1, 0, 0⟩)
  | .ok lc => (some ⟨u.word, lc⟩, ⟨1, 0, 0⟩)

/-- Summary printed by `main` at lines 871-873 plus the accumulated
network-call counters and the exit code. -/
structure DryReport where
  found : Nat
  processedLine : Nat
  failedLine : Nat
  calls : NetCalls
  exitCode : Nat
deriving Repr, DecidableEq

/-- The dry-run path of `main` (lines 776-880): the configuration checks
and the variant-id fetch are skipped, every file goes through
`processFile`, non-`null` results are collected, and the summary prints
`results.length`/`files.length` processed and the rest failed. -/
def mainDryRun (units : List UnitOutcome) : DryReport :=
  let steps := units.map processFileDryRun
  let results := steps.filterMap (fun s => s.1)
  ⟨units.length, results.length, units.length - results.length,
    steps.foldl (fun acc s => addCalls acc s.2) ⟨0, 0, 0⟩, 0⟩

end DropboxPipeline

/-! ## JSON values and a model of `JSON.parse`

`generateListingFromOpenRouter.js` feeds LLM output to the JavaScript
built-in `JSON.parse`.  The builtin is modelled by an executable
recursive-descent parser over the JSON grammar (values, strings with escape
sequences, numbers, arrays, objects), returning `none` exactly when the
builtin would throw a `SyntaxError`. -/

/-- A JavaScript JSON value. -/
inductive Json where
  | nullJ
  | boolJ (b : Bool)
  | numJ (q : ℚ)
  | strJ (s : String)
  | arrJ (xs : List Json)
  | objJ (fields : List (String × Json))
deriving Repr

/-- JSON insignificant whitespace: space, tab, line feed, carriage return. -/
def jsonWsChar (c : Char) : Bool :=
  c = ' ' || c = '\t' || c = '\n' || c = '\r'

/-- Value of a hexadecimal digit. -/
def hexVal (c : Char) : Option Nat :=
  if '0' ≤ c ∧ c ≤ '9' then some (c.toNat - 48)
  else if 'a' ≤ c ∧ c ≤ 'f' then some (c.toNat - 97 + 10)
  else if 'A' ≤ c ∧ c ≤ 'F' then some (c.toNat - 65 + 10)
  else none

/-- Value of a decimal digit. -/
def digVal (c : Char) : Option Nat :=
  if '0' ≤ c ∧ c ≤ '9' then some (c.toNat - 48) else none

/-- Split off the leading run of decimal digits. -/
def jpDigits : List Char → (List Nat × List Char)
  | [] => ([], [])
  | c :: cs =>
    match digVal c with
    | some d =>
      let p := jpDigits cs
      (d :: p.1, p.2)
    | none => ([], c :: cs)

/-- Assemble a digit list into a natural number. -/
def digitsToNat (ds : List Nat) : Nat := ds.foldl (fun a d => a * 10 + d) 0

/-- Parse the body of a JSON string (after the opening quote), handling the
escape sequences of the JSON grammar; fuelled for termination. -/
def jpStrGo : Nat → List Char → List Char → Option (String × List Char)
  | 0, _, _ => none
  | fuel + 1, acc, cs =>
    match cs with
    | [] => none
    | '"' :: r => some (String.mk acc.reverse, r)
    | '\\' :: r =>
      match r with
      | [] => none
      | e :: r2 =>
        match e with
        | '"' => jpStrGo fuel ('"' :: acc) r2
        | '\\' => jpStrGo fuel ('\\' :: acc) r2
        | '/' => jpStrGo fuel ('/' :: acc) r2
        | 'b' => jpStrGo fuel ('\x08' :: acc) r2
        | 'f' => jpStrGo fuel ('\x0c' :: acc) r2
        | 'n' => jpStrGo fuel ('\n' :: acc) r2
        | 'r' => jpStrGo fuel ('\r' :: acc) r2
        | 't' => jpStrGo fuel ('\t' :: acc) r2
        | 'u' =>
          match r2 with
          | a :: b :: c :: d :: r3 =>
            match hexVal a, hexVal b, hexVal c, hexVal d with
            | some ha, some hb, some hc, some hd =>
              jpStrGo fuel (Char.ofNat (((ha * 16 + hb) * 16 + hc) * 16 + hd) :: acc) r3
            | _, _, _, _ => none
          | _ => none
        | _ => none
    | c :: r => if c.toNat < 32 then none else jpStrGo fuel (c :: acc) r

/-- Parse an optional JSON fraction part, returning its rational value. -/
def jpFrac : List Char → Option (ℚ × List Char)
  | '.' :: r =>
    match jpDigits r with
    | ([], _) => none
    | (ds, r2) => some ((digitsToNat ds : ℚ) / (10 : ℚ) ^ ds.length, r2)
  | cs => some (0, cs)

/-- Parse an optional JSON exponent part, returning the power-of-ten
multiplier it denotes. -/
def jpExp : List Char → Option (ℚ × List Char)
  | [] => some (1, [])
  | c :: r =>
    if c = 'e' ∨ c = 'E' then
      let p : Bool × List Char :=
        match r with
        | '+' :: r2 => (false, r2)
        | '-' :: r2 => (true, r2)
        | _ => (false, r)
      match jpDigits p.2 with
      | ([], _) => none
      | (ds, r2) =>
        let e := digitsToNat ds
        some (if p.1 then 1 / (10 : ℚ) ^ e else (10 : ℚ) ^ e, r2)
    else some (1, c :: r)

/-- Parse a JSON number (optional minus, integer part without leading
zeros, optional fraction and exponent). -/
def jpNumber (cs : List Char) : Option (ℚ × List Char) :=
  let p : Bool × List Char :=
    match cs with
    | '-' :: r => (true, r)
    | _ => (false, cs)
  match jpDigits p.2 with
  | ([], _) => none
  | (d :: ds, cs2) =>
    if d = 0 ∧ ds ≠ [] then none
    else
      match jpFrac cs2 with
      | none => none
      | some (fr, cs3) =>
        match jpExp cs3 with
        | none => none
        | some (ex, cs4) =>
          let v := ((digitsToNat (d :: ds) : ℚ) + fr) * ex
          some (if p.1 then -v else v, cs4)

mutual

/-- Parse one JSON value after skipping leading whitespace; fuelled. -/
def jpValue : Nat → List Char → Option (Json × List Char)
  | 0, _ => none
  | fuel + 1, cs =>
    match cs.dropWhile jsonWsChar with
    | 'n' :: 'u' :: 'l' :: 'l' :: r => some (.nullJ, r)
    | 't' :: 'r' :: 'u' :: 'e' :: r => some (.boolJ true, r)
    | 'f' :: 'a' :: 'l' :: 's' :: 'e' :: r => some (.boolJ false, r)
    | '"' :: r =>
      match jpStrGo (r.length + 1) [] r with
      | some (s, r2) => some (.strJ s, r2)
      | none => none
    | '[' :: r =>
      match r.dropWhile jsonWsChar with
      | ']' :: r2 => some (.arrJ [], r2)
      | _ =>
        match jpItems fuel r with
        | some (xs, r2) => some (.arrJ xs, r2)
        | none => none
    | '{' :: r =>
      match r.dropWhile jsonWsChar with
      | '}' :: r2 => some (.objJ [], r2)
      | _ =>
        match jpMembers fuel r with
        | some (ms, r2) => some (.objJ ms, r2)
        | none => none
    | rest =>
      match jpNumber rest with
      | some (q, r2) => some (.numJ q, r2)
      | none => none

/-- Parse the comma-separated items of a non-empty JSON array, up to and
including the closing bracket. -/
def jpItems : Nat → List Char → Option (List Json × List Char)
  | 0, _ => none
  | fuel + 1, cs =>
    match jpValue fuel cs with
    | none => none
    | some (v, r) =>
      match r.dropWhile jsonWsChar with
      | ',' :: r2 =>
        match jpItems fuel r2 with
        | none => none
        | some (vs, r3) => some (v :: vs, r3)
      | ']' :: r2 => some ([v], r2)
      | _ => none

/-- Parse the members of a non-empty JSON object, up to and including the
closing brace. -/
def jpMembers : Nat → List Char → Option (List (String × Json) × List Char)
  | 0, _ => none
  | fuel + 1, cs =>
    match cs.dropWhile jsonWsChar with
    | '"' :: r =>
      match jpStrGo (r.length + 1) [] r with
      | none => none
      | some (key, r2) =>
        match r2.dropWhile jsonWsChar with
        | ':' :: r3 =>
          match jpValue fuel r3 with
          | none => none
          | some (v, r4) =>
            match r4.dropWhile jsonWsChar with
            | ',' :: r5 =>
              match jpMembers fuel r5 with
              | none => none
              | some (ms, r6) => some ((key, v) :: ms, r6)
            | '}' :: r5 => some ([(key, v)], r5)
            | _ => none
        | _ => none
    | _ => none

end

/-- Model of `JSON.parse`: parse one value and require only whitespace
after it; `none` models the builtin throwing. -/
def jsParse (s : String) : Option Json :=
  match jpValue (2 * s.data.length + 2) s.data with
  | some (v, r) => if (r.dropWhile jsonWsChar).isEmpty then some v else none
  | none => none

/-! ## The parse chain of `generateListingFromOpenRouter.js`

The multi-tier variant (the file with lines 66-122): the raw message is
cleaned (newlines to spaces, whitespace collapsed, `\n`/`\r`/`\t` escape
sequences doubled), the greedy regex `\{[\s\S]*\}` extracts the span from
the first opening brace to the last closing brace, and `JSON.parse` is
tried on that span; on failure `JSON.parse` is tried on the original
message; on failure again, individual fields are pulled out with the
regexes `"title":\s*"([^"]+)"` (same for emojis and description) and
`"tags":\s*\[(.*?)\]`, defaulting to empty strings and an empty tag list,
and the assembled object is returned — not an error. -/

/-- Map newline and carriage return to spaces (`/[\n\r]/g` to a space). -/
def nlToSpace (c : Char) : Char := if c = '\n' || c = '\r' then ' ' else c

/-- Collapse every whitespace run to one space (`/\s+/g` to a space); the
flag records whether the previous character was whitespace. -/
def collapseWsGo : Bool → List Char → List Char
  | _, [] => []
  | prevWs, c :: cs =>
    if isWsChar c then
      if prevWs then collapseWsGo true cs else ' ' :: collapseWsGo true cs
    else c :: collapseWsGo false cs

/-- Replace every two-character sequence backslash-`k` by
backslash-backslash-`k` (the `/\\n/g` to `\\\\n` replacements), scanning
left to right without overlap. -/
def escSeq (k : Char) : List Char → List Char
  | [] => []
  | ['\\'] => ['\\']
  | '\\' :: c :: cs =>
    if c = k then '\\' :: '\\' :: k :: escSeq k cs else '\\' :: escSeq k (c :: cs)
  | c :: cs => c :: escSeq k cs

/-- The cleaning pipeline of lines 70-75. -/
def cleanedMessage (m : String) : String :=
  String.mk (escSeq 't' (escSeq 'r' (escSeq 'n' (collapseWsGo false (m.data.map nlToSpace)))))

/-- The greedy regex `\{[\s\S]*\}`: the span from the first opening brace
to the last closing brace after it, or no match. -/
def braceMatch (cs : List Char) : Option (List Char) :=
  match cs.dropWhile (fun c => c ≠ '{') with
  | [] => none
  | b :: tail =>
    match tail.reverse.dropWhile (fun c => c ≠ '}') with
    | [] => none
    | after => some (b :: after.reverse)

/-- Capture of `\s*"([^"]+)"` after a field-name pattern: skip whitespace,
require a quote, capture a non-empty run of non-quote characters, require
the closing quote. -/
def quotedCapture (rest : List Char) : Option (List Char) :=
  match rest.dropWhile isWsChar with
  | '"' :: r2 =>
    let cap := r2.takeWhile (fun c => c ≠ '"')
    if cap.isEmpty then none
    else if (r2.drop cap.length).isEmpty then none
    else some cap
  | _ => none

/-- Capture of `\s*\[(.*?)\]` after the `"tags":` pattern: skip whitespace,
require an opening bracket, lazily capture up to the first closing bracket;
`.` does not match line terminators, so a newline before the bracket makes
the attempt fail. -/
def tagsCapture (rest : List Char) : Option (List Char) :=
  match rest.dropWhile isWsChar with
  | '[' :: r2 =>
    let cap := r2.takeWhile (fun c => c ≠ ']' ∧ c ≠ '\n' ∧ c ≠ '\r')
    match r2.drop cap.length with
    | ']' :: _ => some cap
    | _ => none
  | _ => none

/-- Strip at most one leading and one trailing double quote
(`replace(/^"|"$/g, '')`). -/
def stripEdgeQuotes (cs : List Char) : List Char :=
  let a := match cs with
    | '"' :: r => r
    | r => r
  match a.reverse with
  | '"' :: r => r.reverse
  | _ => a

/-- The manual fallback of lines 94-117: regex field extraction over the
raw message with empty-string/empty-list defaults, assembled into the
result object. -/
def manualExtract (word m : String) : Json :=
  let title := match scanFirst ("\"title\":").data quotedCapture m.data with
    | some cap => String.mk cap
    | none => ""
  let emojis := match scanFirst ("\"emojis\":").data quotedCapture m.data with
    | some cap => String.mk cap
    | none => ""
  let description := match scanFirst ("\"description\":").data quotedCapture m.data with
    | some cap => String.mk cap
    | none => ""
  let tagsInner := match scanFirst ("\"tags\":").data tagsCapture m.data with
    | some cap => cap
    | none => []
  let tags := ((splitCommaGo [] tagsInner).map
    (fun t => String.mk (stripEdgeQuotes (trimChars t)))).filter (fun s => s.length != 0)
  .objJ [("word", .strJ (if containsSub word.data m.data then word else "")),
         ("title", .strJ title),
         ("emojis", .strJ emojis),
         ("description", .strJ description),
         ("tags", .arrJ (tags.map Json.strJ))]

/-- The first parse tier (lines 70-85): clean the message, extract the
brace-delimited span, and run `JSON.parse` on it; `none` when there is no
span or the span does not parse. -/
def tierOne (m : String) : Option Json :=
  match braceMatch (cleanedMessage m).data with
  | some sub => jsParse (String.mk sub)
  | none => none

/-- The full parse chain applied to the message content (lines 68-118):
`JSON.parse` on the brace-extracted span of the cleaned message, then
`JSON.parse` on the original message, then the manual extraction — which
always returns a value, so the chain never raises. -/
def parseListingMessage (word m : String) : Except String Json :=
  match tierOne m with
  | some v => .ok v
  | none =>
    match jsParse m with
    | some v => .ok v
    | none => .ok (manualExtract word m)

/-- The single-tier variant in src/generateListingFromOpenRouter.js lines
66-74: `JSON.parse` on the raw message, rethrowing the parse error on
failure, with no tolerant fallback. -/
def parseListingStrict (m : String) : Except String Json :=
  match jsParse m with
  | some v => .ok v
  | none => .error "Failed to parse JSON"

theorem geomList_length (d m : ℚ) (r : Nat) : (geomList d m r).length = r := by
  induction r generalizing d with
  | zero => rfl
  | succ r ih => simp [geomList, ih]

theorem geomList_getElem (d m : ℚ) (r k : Nat) (hk : k < r) :
    (geomList d m r)[k]? = some (d * m ^ k) := by
  induction r generalizing d k with
  | zero => omega
  | succ r ih =>
    cases k with
    | zero => simp [geomList]
    | succ k =>
      have : k < r := by omega
      simp only [geomList, List.getElem?_cons_succ, ih (d * m) k this]
      congr 1
      ring

theorem retryGo_step {ε α : Type} (op : Nat → Except ε α) (fb : ε) (m : ℚ)
    (rem attempt : Nat) (delay : ℚ) (le : Option ε) :
    retryGo op fb m (rem + 1) attempt delay le =
      (match op attempt with
       | .ok a => (⟨.ok a, 1, []⟩ : RunTrace ε α)
       | .error e =>
         if rem = 0 then ⟨.error e, 1, []⟩
         else
           let t := retryGo op fb m rem (attempt + 1) (delay * m) (some e)
           ⟨t.result, t.calls + 1, delay :: t.sleeps⟩) := rfl

theorem retryGo_ok {ε α : Type} (op : Nat → Except ε α) (fb : ε) (m : ℚ)
    (rem attempt : Nat) (delay : ℚ) (le : Option ε) (a : α) (h : op attempt = .ok a) :
    retryGo op fb m (rem + 1) attempt delay le = ⟨.ok a, 1, []⟩ := by
  rw [retryGo_step, h]

theorem retryGo_errLast {ε α : Type} (op : Nat → Except ε α) (fb : ε) (m : ℚ)
    (attempt : Nat) (delay : ℚ) (le : Option ε) (e : ε) (h : op attempt = .error e) :
    retryGo op fb m (0 + 1) attempt delay le = ⟨.error e, 1, []⟩ := by
  rw [retryGo_step, h]
  rfl

theorem retryGo_errStep {ε α : Type} (op : Nat → Except ε α) (fb : ε) (m : ℚ)
    (rem attempt : Nat) (delay : ℚ) (le : Option ε) (e : ε) (h : op attempt = .error e)
    (hr : rem ≠ 0) :
    retryGo op fb m (rem + 1) attempt delay le =
      ⟨(retryGo op fb m rem (attempt + 1) (delay * m) (some e)).result,
       (retryGo op fb m rem (attempt + 1) (delay * m) (some e)).calls + 1,
       delay :: (retryGo op fb m rem (attempt + 1) (delay * m) (some e)).sleeps⟩ := by
  rw [retryGo_step, h]
  simp [hr]

theorem retryGo_allFail {ε α : Type} (op : Nat → Except ε α) (f : Nat → ε) (fb : ε) (m : ℚ)
    (hf : ∀ k, op k = .error (f k)) (rem : Nat) :
    ∀ (attempt : Nat) (delay : ℚ) (le : Option ε),
      retryGo op fb m (rem + 1) attempt delay le =
        ⟨.error (f (attempt + rem)), rem + 1, geomList delay m rem⟩ := by
  induction rem with
  | zero =>
    intro attempt delay le
    rw [retryGo_errLast op fb m attempt delay le _ (hf attempt)]
    rfl
  | succ r ih =>
    intro attempt delay le
    rw [retryGo_errStep op fb m (r + 1) attempt delay le _ (hf attempt) (Nat.succ_ne_zero r)]
    rw [ih (attempt + 1) (delay * m) (some (f attempt))]
    have h1 : attempt + 1 + r = attempt + (r + 1) := by omega
    rw [h1]
    rfl

/-! ## Theorems -/

theorem retryWithBackoff_allFail {ε α : Type} (op : Nat → Except ε α) (f : Nat → ε) (fb : ε)
    (n : Nat) (d : ℚ) (hf : ∀ k, op k = .error (f k)) (hn : 1 ≤ n) :
    retryWithBackoff op fb n d = ⟨.error (f n), n, geomList d (3 / 2) (n - 1)⟩ := by
  cases n with
  | zero => omega
  | succ r =>
    unfold retryWithBackoff
    rw [retryGo_allFail op f fb (3 / 2) hf r 1 d none]
    have h1 : 1 + r = r + 1 := Nat.add_comm 1 r
    rw [h1, Nat.add_sub_cancel]

/-- Claim C1 (retry count invariant): for every retry policy with
`maxAttempts >= 1` and every operation failing on every invocation, the
retry executor — and in particular its `createProductFromTemplate`
instantiation — performs the operation exactly `maxAttempts` times before
reporting failure. -/
theorem retry_count_invariant {ε α : Type} (op : Nat → Except ε α) (f : Nat → ε) (fb : ε)
    (resp : Nat → Except String Nat) (g : Nat → String) (n : Nat) (d : ℚ)
    (hf : ∀ k, op k = .error (f k)) (hg : ∀ k, resp k = .error (g k)) (hn : 1 ≤ n) :
    (retryWithBackoff op fb n d).calls = n ∧ (createProductFromTemplate resp n d).calls = n := by
  constructor
  · rw [retryWithBackoff_allFail op f fb n d hf hn]
  · unfold createProductFromTemplate
    rw [retryWithBackoff_allFail resp g _ n d hg hn]

theorem retry_count_invariant_witness :
    (1 : Nat) ≤ 3
  ∧ (retryWithBackoff (fun _ : Nat => (Except.error "boom" : Except String Nat)) "fb" 3 2000).calls = 3
  ∧ (createProductFromTemplate (fun _ => Except.error "boom") 3 2000).calls = 3 := by
  refine ⟨by decide, ?_⟩
  exact retry_count_invariant (fun _ => Except.error "boom") (fun _ => "boom") "fb"
    (fun _ => Except.error "boom") (fun _ => "boom") 3 2000
    (fun _ => rfl) (fun _ => rfl) (by decide)

/-- Claim C2 (backoff growth): when every attempt fails, the executor
sleeps exactly `maxAttempts - 1` times (never after the final attempt); the
sleep after the `k`-th failed attempt (`k` counted from 1, list position
`k - 1`) is `initialDelay * 1.5 ^ (k - 1)`, and each sleep is the previous
sleep multiplied by the backoff multiplier 1.5. -/
theorem backoff_growth {ε α : Type} (op : Nat → Except ε α) (f : Nat → ε) (fb : ε)
    (n : Nat) (d : ℚ) (hf : ∀ k, op k = .error (f k)) :
    (retryWithBackoff op fb n d).sleeps.length = n - 1
  ∧ (∀ k, k < n - 1 → (retryWithBackoff op fb n d).sleeps[k]? = some (d * (3 / 2) ^ k))
  ∧ (∀ k, k + 1 < n - 1 →
      (retryWithBackoff op fb n d).sleeps[k + 1]? =
        ((retryWithBackoff op fb n d).sleeps[k]?).map (fun x => x * (3 / 2))) := by
  cases n with
  | zero =>
    refine ⟨rfl, ?_, ?_⟩ <;> intro k hk <;> omega
  | succ r =>
    rw [retryWithBackoff_allFail op f fb (r + 1) d hf (by omega)]
    simp only [Nat.add_sub_cancel]
    refine ⟨geomList_length d (3 / 2) r, ?_, ?_⟩
    · intro k hk
      exact geomList_getElem d (3 / 2) r k (by omega)
    · intro k hk
      rw [geomList_getElem d (3 / 2) r k (by omega), geomList_getElem d (3 / 2) r (k + 1) (by omega)]
      simp only [Option.map_some']
      congr 1
      ring

theorem backoff_growth_witness :
    (retryWithBackoff (fun _ : Nat => (Except.error "boom" : Except String Nat)) "fb" 3 2000).sleeps.length = 2
  ∧ (retryWithBackoff (fun _ : Nat => (Except.error "boom" : Except String Nat)) "fb" 3 2000).sleeps[0]? = some (2000 * (3 / 2) ^ 0)
  ∧ (retryWithBackoff (fun _ : Nat => (Except.error "boom" : Except String Nat)) "fb" 3 2000).sleeps[1]? = some (2000 * (3 / 2) ^ 1) := by
  have h := backoff_growth (fun _ : Nat => (Except.error "boom" : Except String Nat))
    (fun _ => "boom") "fb" 3 2000 (fun _ => rfl)
  exact ⟨h.1, h.2.1 0 (by decide), h.2.1 1 (by decide)⟩

theorem printfulGo_step (body : Nat → Except PErr String) (rem attempt : Nat) (delay : ℚ)
    (le : Option PErr) :
    printfulGo body (rem + 1) attempt delay le =
      (match body attempt with
       | .ok url => (⟨.ok url, 1, []⟩ : RunTrace PErr String)
       | .error e =>
         if (isServerError e || isRateLimitError e) && rem != 0 then
           let t := printfulGo body rem (attempt + 1) (delay * (3 / 2)) (some e)
           ⟨t.result, t.calls + 1, delay :: t.sleeps⟩
         else ⟨.error e, 1, []⟩) := rfl

theorem printfulGo_errRetry (body : Nat → Except PErr String) (rem attempt : Nat) (delay : ℚ)
    (le : Option PErr) (e : PErr) (h : body attempt = .error e)
    (hcond : (isServerError e || isRateLimitError e) = true) (hr : rem ≠ 0) :
    printfulGo body (rem + 1) attempt delay le =
      ⟨(printfulGo body rem (attempt + 1) (delay * (3 / 2)) (some e)).result,
       (printfulGo body rem (attempt + 1) (delay * (3 / 2)) (some e)).calls + 1,
       delay :: (printfulGo body rem (attempt + 1) (delay * (3 / 2)) (some e)).sleeps⟩ := by
  rw [printfulGo_step, h]
  simp [hcond, hr]

theorem printfulGo_errBreak (body : Nat → Except PErr String) (rem attempt : Nat) (delay : ℚ)
    (le : Option PErr) (e : PErr) (h : body attempt = .error e)
    (hcond : (isServerError e || isRateLimitError e) = false) :
    printfulGo body (rem + 1) attempt delay le = ⟨.error e, 1, []⟩ := by
  rw [printfulGo_step, h]
  simp [hcond]

theorem printfulGo_allRetryableFail (body : Nat → Except PErr String) (g : Nat → PErr)
    (hg : ∀ k, body k = .error (g k))
    (hret : ∀ k, (isServerError (g k) || isRateLimitError (g k)) = true) (rem : Nat) :
    ∀ (attempt : Nat) (delay : ℚ) (le : Option PErr),
      printfulGo body (rem + 1) attempt delay le =
        ⟨.error (g (attempt + rem)), rem + 1, geomList delay (3 / 2) rem⟩ := by
  induction rem with
  | zero =>
    intro attempt delay le
    rw [printfulGo_step, hg attempt]
    simp [geomList]
  | succ r ih =>
    intro attempt delay le
    rw [printfulGo_errRetry body (r + 1) attempt delay le (g attempt) (hg attempt)
      (hret attempt) (Nat.succ_ne_zero r)]
    rw [ih (attempt + 1) (delay * (3 / 2)) (some (g attempt))]
    have h1 : attempt + 1 + r = attempt + (r + 1) := by omega
    rw [h1]
    rfl

/-- Claim C3 (exhaustion error propagation): when all `maxAttempts`
attempts fail, the retry executor fails with the error of the final
attempt: the loop rethrows the last caught error after exhaustion (the
source throws the cause itself — the spec's `ExhaustedRetriesError
wrapping the last cause` — rather than swallowing it).  The same holds for
the classified loop of printfulUploader.js when every attempt fails with a
retryable (5xx/429) error and the file is within the size limit. -/
theorem exhaustion_error_propagation {ε α : Type} (op : Nat → Except ε α) (f : Nat → ε) (fb : ε)
    (fileSize : Nat) (op2 : Nat → Except PErr String) (g : Nat → PErr) (n : Nat) (d : ℚ)
    (hf : ∀ k, op k = .error (f k)) (hn : 1 ≤ n)
    (hsize : fileSize ≤ 200 * 1024 * 1024)
    (hg : ∀ k, op2 k = .error (g k))
    (hret : ∀ k, (isServerError (g k) || isRateLimitError (g k)) = true) :
    (retryWithBackoff op fb n d).result = .error (f n)
  ∧ (PrintfulUploader.uploadFileToPrintful fileSize op2 n d).result = .error (g n) := by
  constructor
  · rw [retryWithBackoff_allFail op f fb n d hf hn]
  · obtain ⟨r, rfl⟩ : ∃ r, n = r + 1 := ⟨n - 1, by omega⟩
    unfold PrintfulUploader.uploadFileToPrintful
    have hbody : ∀ k, printfulAttempt fileSize op2 k = .error (g k) := by
      intro k
      unfold printfulAttempt
      rw [if_neg (by omega), hg k]
    rw [printfulGo_allRetryableFail (printfulAttempt fileSize op2) g hbody hret r 1 d none]
    have h1 : 1 + r = r + 1 := Nat.add_comm 1 r
    rw [h1]

theorem exhaustion_error_propagation_witness :
    (1 : Nat) ≤ 2
  ∧ (retryWithBackoff (fun k : Nat => (Except.error (String.append "fail" (toString k)) : Except String Nat)) "fb" 2 5).result
      = .error (String.append "fail" (toString 2))
  ∧ (PrintfulUploader.uploadFileToPrintful 1024 (fun k => Except.error (.httpStatus (500 + k))) 2 5).result
      = .error (.httpStatus (500 + 2)) := by
  refine ⟨by decide, ?_⟩
  exact exhaustion_error_propagation
    (fun k : Nat => (Except.error (String.append "fail" (toString k)) : Except String Nat))
    (fun k => String.append "fail" (toString k)) "fb"
    1024 (fun k => Except.error (.httpStatus (500 + k))) (fun k => .httpStatus (500 + k))
    2 5 (fun _ => rfl) (by decide) (by decide) (fun _ => rfl) (fun k => by simp [isServerError])

/-- Claim C4 counterexample: a successful completion-endpoint response whose
content parses without a tags field (`Title: T`, `Description: D`, no
`Tags:` line) makes `generateProductText` fail validation, yet the
operation is invoked again: with `maxRetries = 3` the endpoint is called 3
times and two backoff sleeps occur, contradicting the claim that a
malformed-content failure consumes no retry attempts. -/
theorem malformed_content_retried_counterexample :
    generateProductText (fun _ => .content "Title: T\nDescription: D") 3 2000 =
      ⟨.error (.missingFields ⟨"T", "D", []⟩), 3, [2000, 3000]⟩
  ∧ (generateProductText (fun _ => .content "Title: T\nDescription: D") 3 2000).calls ≠ 1 := by
  have hatt : generateAttempt (.content "Title: T\nDescription: D")
      = .error (.missingFields ⟨"T", "D", []⟩) := by decide
  have hchar := retryWithBackoff_allFail
    (fun k => generateAttempt ((fun _ : Nat => GenResponse.content "Title: T\nDescription: D") k))
    (fun _ => GenErr.missingFields ⟨"T", "D", []⟩)
    (GenErr.other "Failed to generate product text after multiple attempts") 3 2000
    (fun _ => hatt) (by decide)
  have hg : geomList 2000 (3 / 2) (3 - 1) = [2000, 3000] := by
    show geomList 2000 (3 / 2) 2 = [2000, 3000]
    simp only [geomList]
    norm_num
  constructor
  · calc generateProductText (fun _ => .content "Title: T\nDescription: D") 3 2000
        = ⟨.error (.missingFields ⟨"T", "D", []⟩), 3, geomList 2000 (3 / 2) (3 - 1)⟩ := hchar
      _ = ⟨.error (.missingFields ⟨"T", "D", []⟩), 3, [2000, 3000]⟩ := by rw [hg]
  · have hc : (generateProductText (fun _ => .content "Title: T\nDescription: D") 3 2000).calls = 3 :=
      congrArg RunTrace.calls hchar
    omega

/-- Claim C4 amended: the malformed-content validation failure is thrown
inside the `try` block of `generateProductText` and caught by the same
`catch` as a transport failure, so it is retried like any other error: when
every response is well-formed at the transport level but fails content
validation, the endpoint is invoked exactly `maxRetries` times and the
missing-fields error of the last attempt is propagated after exhaustion. -/
theorem malformed_content_consumes_retries (s : String) (n : Nat) (d : ℚ)
    (hbad : (parseProductText s).title = "" ∨ (parseProductText s).description = ""
      ∨ (parseProductText s).tags = []) (hn : 1 ≤ n) :
    (generateProductText (fun _ => .content s) n d).calls = n
  ∧ (generateProductText (fun _ => .content s) n d).result =
      .error (.missingFields (parseProductText s)) := by
  have hcond : ((parseProductText s).title = "" || (parseProductText s).description = ""
      || (parseProductText s).tags.isEmpty) = true := by
    rcases hbad with h | h | h <;> simp [h]
  have hatt : generateAttempt (.content s) = .error (.missingFields (parseProductText s)) := by
    unfold generateAttempt
    simp only [hcond, if_true]
  have hchar : retryWithBackoff (fun k => generateAttempt ((fun _ : Nat => GenResponse.content s) k))
      (GenErr.other "Failed to generate product text after multiple attempts") n d
      = ⟨.error (GenErr.missingFields (parseProductText s)), n, geomList d (3 / 2) (n - 1)⟩ :=
    retryWithBackoff_allFail _ (fun _ => GenErr.missingFields (parseProductText s)) _ n d
      (fun _ => hatt) hn
  exact ⟨congrArg RunTrace.calls hchar, congrArg RunTrace.result hchar⟩

theorem malformed_content_consumes_retries_witness :
    ((parseProductText "Title: T\nDescription: D").title = ""
      ∨ (parseProductText "Title: T\nDescription: D").description = ""
      ∨ (parseProductText "Title: T\nDescription: D").tags = [])
  ∧ (1 : Nat) ≤ 4
  ∧ (generateProductText (fun _ => .content "Title: T\nDescription: D") 4 1000).calls = 4 := by
  refine ⟨by decide, by decide, ?_⟩
  exact (malformed_content_consumes_retries "Title: T\nDescription: D" 4 1000
    (by decide) (by decide)).1

/-- Claim C7 (idempotent re-upload): when the upload succeeds (the file is
written with mode `overwrite`) and link creation reports the
`shared_link_already_exists` conflict — exactly the situation of a second
upload of the same file under the same name — `uploadMockupToDropbox`
recovers on its first attempt by listing the existing shared links and
returning the first one converted into a direct link: a success, not a
transport error, with no retry consumed. -/
theorem idempotent_reupload (env : Nat → DropboxEnv) (n : Nat) (d : ℚ) (p u : String)
    (rest : List String)
    (henv : env 1 = ⟨.ok p, .error .alreadyExists, .ok (u :: rest)⟩) (hn : 1 ≤ n) :
    (uploadMockupToDropbox env n d).result = .ok (directLink u)
  ∧ (uploadMockupToDropbox env n d).calls = 1
  ∧ (uploadMockupToDropbox env n d).sleeps = [] := by
  obtain ⟨r, rfl⟩ : ∃ r, n = r + 1 := ⟨n - 1, by omega⟩
  have hop : (fun k => dropboxAttempt (env k)) 1 = .ok (directLink u) := by
    show dropboxAttempt (env 1) = .ok (directLink u)
    rw [henv]
    rfl
  have hrun : uploadMockupToDropbox env (r + 1) d = ⟨.ok (directLink u), 1, []⟩ := by
    unfold uploadMockupToDropbox retryWithBackoff
    exact retryGo_ok (fun k => dropboxAttempt (env k)) _ (3 / 2) r 1 d none (directLink u) hop
  rw [hrun]
  exact ⟨rfl, rfl, rfl⟩

theorem idempotent_reupload_witness :
    (1 : Nat) ≤ 3
  ∧ (uploadMockupToDropbox
      (fun _ => ⟨.ok "/mockups/PASTA-BLACK.png", .error .alreadyExists,
        .ok ["https://www.dropbox.com/s/abc/PASTA-BLACK.png?dl=0"]⟩) 3 2000).result
      = .ok "https://dl.dropboxusercontent.com/s/abc/PASTA-BLACK.png" := by
  refine ⟨by decide, ?_⟩
  have h := (idempotent_reupload
    (fun _ => ⟨.ok "/mockups/PASTA-BLACK.png", .error .alreadyExists,
      .ok ["https://www.dropbox.com/s/abc/PASTA-BLACK.png?dl=0"]⟩) 3 2000
    "/mockups/PASTA-BLACK.png" "https://www.dropbox.com/s/abc/PASTA-BLACK.png?dl=0" []
    rfl (by decide)).1
  rw [h]
  decide

/-- Claim C8 counterexample: `getStoreCredentials` never fails.  For the
unknown store identifier `"shopify"` it silently returns the manual store's
credentials (the `else` branch), and when the Etsy configuration is absent
it returns a credentials object with undefined (`none`) fields instead of a
`MissingCredentialsError` naming the absent key. -/
theorem credential_fallback_counterexample :
    getStoreCredentials ⟨some "mk", some "ms", some "ek", some "es"⟩ "shopify"
      = getStoreCredentials ⟨some "mk", some "ms", some "ek", some "es"⟩ "manual"
  ∧ getStoreCredentials ⟨some "mk", some "ms", some "ek", some "es"⟩ "shopify"
      = ⟨some "mk", some "ms", "Manual/API store"⟩
  ∧ getStoreCredentials ⟨some "mk", some "ms", none, none⟩ "etsy"
      = ⟨none, none, "Etsy-linked store"⟩ := by
  exact ⟨by decide, by decide, by decide⟩

/-- Claim C8 amended: the resolver is total and never raises.  `"etsy"`
selects the Etsy-linked environment pair; every other identifier —
including unknown ones — silently resolves to the manual store's
credentials; an absent configuration variable flows through as an undefined
(`none`) field rather than producing a `MissingCredentialsError`. -/
theorem credential_resolution (env : CredEnv) (t : String) (ht : t ≠ "etsy") :
    getStoreCredentials env t = getStoreCredentials env "manual"
  ∧ getStoreCredentials env t = ⟨env.printfulApiKey, env.printfulStoreId, "Manual/API store"⟩
  ∧ getStoreCredentials env "etsy" = ⟨env.etsyApiKey, env.etsyStoreId, "Etsy-linked store"⟩ := by
  unfold getStoreCredentials
  rw [if_neg ht, if_neg (show ¬("manual" = "etsy") by decide), if_pos rfl]
  exact ⟨rfl, rfl, rfl⟩

theorem credential_resolution_witness :
    ("shopify" ≠ "etsy")
  ∧ getStoreCredentials ⟨none, none, none, none⟩ "shopify"
      = getStoreCredentials ⟨none, none, none, none⟩ "manual" := by
  refine ⟨by decide, ?_⟩
  exact (credential_resolution ⟨none, none, none, none⟩ "shopify" (by decide)).1

/-- Claim C9 (oversized-file rejection is permanent): when the file exceeds
the 200MB limit, the direct uploader's size guard throws before any network
call; the size-limit error is neither a 5xx nor a 429, so the classified
`catch` breaks out of the loop at once: the attempt body runs exactly once,
no sleep occurs, the size-limit error is the final result, and the outcome
is identical for every injected network operation — the network call is
never made and no retry budget is consumed. -/
theorem oversized_rejection (fileSize : Nat) (op op2 : Nat → Except PErr String) (n : Nat)
    (d : ℚ) (hsize : 200 * 1024 * 1024 < fileSize) (hn : 1 ≤ n) :
    (PrintfulUploader.uploadFileToPrintful fileSize op n d).result = .error .sizeLimit
  ∧ (PrintfulUploader.uploadFileToPrintful fileSize op n d).calls = 1
  ∧ (PrintfulUploader.uploadFileToPrintful fileSize op n d).sleeps = []
  ∧ PrintfulUploader.uploadFileToPrintful fileSize op n d
      = PrintfulUploader.uploadFileToPrintful fileSize op2 n d := by
  obtain ⟨r, rfl⟩ : ∃ r, n = r + 1 := ⟨n - 1, by omega⟩
  have hb : ∀ (op3 : Nat → Except PErr String) (k : Nat),
      printfulAttempt fileSize op3 k = .error .sizeLimit := by
    intro op3 k
    unfold printfulAttempt
    rw [if_pos hsize]
  have hrun : ∀ (op3 : Nat → Except PErr String),
      PrintfulUploader.uploadFileToPrintful fileSize op3 (r + 1) d
        = ⟨.error .sizeLimit, 1, []⟩ := by
    intro op3
    unfold PrintfulUploader.uploadFileToPrintful
    exact printfulGo_errBreak (printfulAttempt fileSize op3) r 1 d none .sizeLimit
      (hb op3 1) rfl
  rw [hrun op, hrun op2]
  exact ⟨rfl, rfl, rfl, rfl⟩

theorem oversized_rejection_witness :
    200 * 1024 * 1024 < 200 * 1024 * 1024 + 1
  ∧ (1 : Nat) ≤ 3
  ∧ (PrintfulUploader.uploadFileToPrintful (200 * 1024 * 1024 + 1)
      (fun _ => Except.ok "url") 3 2000).result = .error .sizeLimit
  ∧ (PrintfulUploader.uploadFileToPrintful (200 * 1024 * 1024 + 1)
      (fun _ => Except.ok "url") 3 2000).calls = 1 := by
  refine ⟨by omega, by decide, ?_, ?_⟩
  · exact (oversized_rejection _ (fun _ => Except.ok "url") (fun _ => Except.ok "url") 3 2000
      (by omega) (by decide)).1
  · exact (oversized_rejection _ (fun _ => Except.ok "url") (fun _ => Except.ok "url") 3 2000
      (by omega) (by decide)).2.1

theorem processFile_attemptSync (fl : TemplatePipeline.Flags) (u : TemplatePipeline.UnitOutcome)
    (hdry : fl.dryRun = false) (hT : fl.templateOnly = false) (hS : fl.syncOnly = false) :
    TemplatePipeline.processFile fl u =
      (match u.listing, u.sync with
       | .error _, _ => none
       | .ok _, .ok pid => some (.productRes u.word pid)
       | .ok _, .error _ => some (.templateOnlyRes u.word)) := by
  unfold TemplatePipeline.processFile TemplatePipeline.processFileTry
  rcases u.listing with e | lc
  · rfl
  · rcases u.sync with e2 | pid
    · simp [hdry, hT, hS]
    · simp [hdry, hT, hS]

theorem templatePipeline_synced_count (fl : TemplatePipeline.Flags)
    (hdry : fl.dryRun = false) (hT : fl.templateOnly = false) (hS : fl.syncOnly = false) :
    ∀ units : List TemplatePipeline.UnitOutcome,
      ((units.map (TemplatePipeline.processFile fl)).filterMap id).countP
          TemplatePipeline.isProductResult
        = units.countP (fun u => exIsOk u.listing && exIsOk u.sync) := by
  intro units
  induction units with
  | nil => rfl
  | cons u us ih =>
    rw [List.map_cons, List.countP_cons]
    rcases hl : u.listing with e | lc
    · have hpf : TemplatePipeline.processFile fl u = none := by
        unfold TemplatePipeline.processFile TemplatePipeline.processFileTry
        rw [hl]
      rw [hpf, List.filterMap_cons_none rfl,
          show (exIsOk (Except.error e) && exIsOk u.sync) = false from rfl,
          if_neg (show ¬(false = true) by decide), Nat.add_zero]
      exact ih
    · rcases hs : u.sync with e2 | pid
      · have hpf : TemplatePipeline.processFile fl u
            = some (.templateOnlyRes u.word) := by
          unfold TemplatePipeline.processFile TemplatePipeline.processFileTry
          rw [hl, hs]
          simp [hdry, hT, hS]
        rw [hpf, List.filterMap_cons_some (show id (some (TemplatePipeline.FileResult.templateOnlyRes u.word))
              = some (TemplatePipeline.FileResult.templateOnlyRes u.word) from rfl), List.countP_cons,
            show (exIsOk (Except.ok lc) && exIsOk (Except.error e2)) = false from rfl,
            show TemplatePipeline.isProductResult (.templateOnlyRes u.word) = false from rfl,
            if_neg (show ¬(false = true) by decide), Nat.add_zero, Nat.add_zero]
        exact ih
      · have hpf : TemplatePipeline.processFile fl u
            = some (.productRes u.word pid) := by
          unfold TemplatePipeline.processFile TemplatePipeline.processFileTry
          rw [hl, hs]
          simp [hdry, hT, hS]
        rw [hpf, List.filterMap_cons_some (show id (some (TemplatePipeline.FileResult.productRes u.word pid))
              = some (TemplatePipeline.FileResult.productRes u.word pid) from rfl), List.countP_cons,
            show (exIsOk (Except.ok lc) && exIsOk (Except.ok pid)) = true from rfl,
            show TemplatePipeline.isProductResult (.productRes u.word pid) = true from rfl,
            if_pos (show (true = true) from rfl)]
        rw [ih]

/-- Claim C5 (partial-failure isolation): with dry-run off, `main` gives
every unit exactly one per-unit result computed by `processFile` from that
unit's own outcomes alone — so the permanent failure of one unit cannot
abort or affect the processing of any other; the summary's succeeded and
failed template counters sum to the number of processed units; the run's
exit code is 0 regardless of per-unit failures (every per-unit error is
absorbed by `processFile`'s catch); and in `--attempt-sync` mode the synced
count is exactly the number of units whose listing and sync calls both
succeeded, so a unit rigged to fail its sync permanently is reported as not
synced while the others still succeed. -/
theorem partial_failure_isolation (fl : TemplatePipeline.Flags)
    (units : List TemplatePipeline.UnitOutcome) (hdry : fl.dryRun = false) :
    (TemplatePipeline.main fl units).exitCode = 0
  ∧ (TemplatePipeline.main fl units).perUnit.length = units.length
  ∧ (∀ i : Nat, (TemplatePipeline.main fl units).perUnit[i]?
      = (units[i]?).map (TemplatePipeline.processFile fl))
  ∧ (TemplatePipeline.main fl units).templatesCreated
      + (TemplatePipeline.main fl units).templatesFailed = units.length
  ∧ (fl.templateOnly = false → fl.syncOnly = false →
      (TemplatePipeline.main fl units).synced
        = units.countP (fun u => exIsOk u.listing && exIsOk u.sync)) := by
  have hmain : TemplatePipeline.main fl units =
      ⟨units.length, units.map (TemplatePipeline.processFile fl),
        ((units.map (TemplatePipeline.processFile fl)).filterMap id).countP
          TemplatePipeline.isTemplateResult,
        units.length - ((units.map (TemplatePipeline.processFile fl)).filterMap id).countP
          TemplatePipeline.isTemplateResult,
        ((units.map (TemplatePipeline.processFile fl)).filterMap id).countP
          TemplatePipeline.isProductResult,
        true, 0⟩ := by
    unfold TemplatePipeline.main
    rw [if_neg (by simp [hdry])]
  rw [hmain]
  refine ⟨rfl, by simp, ?_, ?_, ?_⟩
  · intro i
    simp
  · have hle : ((units.map (TemplatePipeline.processFile fl)).filterMap id).countP
        TemplatePipeline.isTemplateResult ≤ units.length := by
      calc ((units.map (TemplatePipeline.processFile fl)).filterMap id).countP
            TemplatePipeline.isTemplateResult
          ≤ ((units.map (TemplatePipeline.processFile fl)).filterMap id).length :=
            List.countP_le_length _
        _ ≤ (units.map (TemplatePipeline.processFile fl)).length :=
            List.length_filterMap_le _ _
        _ = units.length := List.length_map _ _
    simp only []
    omega
  · intro hT hS
    exact templatePipeline_synced_count fl hdry hT hS units

theorem partial_failure_isolation_witness :
    ((⟨false, false, false⟩ : TemplatePipeline.Flags).dryRun = false)
  ∧ (TemplatePipeline.main ⟨false, false, false⟩
      [⟨"TACO", .ok ⟨"t1", "d1", ["x"]⟩, .ok "u1", .ok "p1"⟩,
       ⟨"MOLE", .ok ⟨"t2", "d2", ["x"]⟩, .ok "u2", .error "Manual Order / API platform"⟩,
       ⟨"PASTA", .ok ⟨"t3", "d3", ["x"]⟩, .ok "u3", .ok "p3"⟩]).exitCode = 0
  ∧ (TemplatePipeline.main ⟨false, false, false⟩
      [⟨"TACO", .ok ⟨"t1", "d1", ["x"]⟩, .ok "u1", .ok "p1"⟩,
       ⟨"MOLE", .ok ⟨"t2", "d2", ["x"]⟩, .ok "u2", .error "Manual Order / API platform"⟩,
       ⟨"PASTA", .ok ⟨"t3", "d3", ["x"]⟩, .ok "u3", .ok "p3"⟩]).synced = 2 := by
  refine ⟨rfl, ?_, ?_⟩
  · exact (partial_failure_isolation _ _ rfl).1
  · exact ((partial_failure_isolation _ _ rfl).2.2.2.2 rfl rfl).trans (by decide)

/-- Claim C6 counterexample: a dry run over the two design units `TACO` and
`MOLE` issues two real completion-endpoint (OpenRouter) calls —
`generateListing` runs before the dry-run short-circuit in `processFile` —
contradicting the claim that dry-run mode issues zero real network calls;
the summary itself does come out as processed 2, failed 0. -/
theorem dry_run_network_calls_counterexample :
    (DropboxPipeline.mainDryRun
      [⟨"TACO", .ok ⟨"t1", "d1", ["x"]⟩⟩, ⟨"MOLE", .ok ⟨"t2", "d2", ["x"]⟩⟩]).calls
      = ⟨2, 0, 0⟩
  ∧ (DropboxPipeline.mainDryRun
      [⟨"TACO", .ok ⟨"t1", "d1", ["x"]⟩⟩, ⟨"MOLE", .ok ⟨"t2", "d2", ["x"]⟩⟩]).calls.openrouter ≠ 0
  ∧ (DropboxPipeline.mainDryRun
      [⟨"TACO", .ok ⟨"t1", "d1", ["x"]⟩⟩, ⟨"MOLE", .ok ⟨"t2", "d2", ["x"]⟩⟩]).processedLine = 2
  ∧ (DropboxPipeline.mainDryRun
      [⟨"TACO", .ok ⟨"t1", "d1", ["x"]⟩⟩, ⟨"MOLE", .ok ⟨"t2", "d2", ["x"]⟩⟩]).failedLine = 0 := by
  exact ⟨by decide, by decide, by decide, by decide⟩

theorem processFileDryRun_calls (u : DropboxPipeline.UnitOutcome) :
    (DropboxPipeline.processFileDryRun u).2 = ⟨1, 0, 0⟩ := by
  unfold DropboxPipeline.processFileDryRun
  rcases u.listing with e | lc <;> rfl

theorem dryRun_foldCalls (units : List DropboxPipeline.UnitOutcome) :
    ∀ acc : DropboxPipeline.NetCalls,
      (units.map DropboxPipeline.processFileDryRun).foldl
        (fun a s => DropboxPipeline.addCalls a s.2) acc
      = ⟨acc.openrouter + units.length, acc.printful, acc.dropbox⟩ := by
  induction units with
  | nil =>
    intro acc
    simp
  | cons u us ih =>
    intro acc
    simp only [List.map_cons, List.foldl_cons]
    rw [show DropboxPipeline.addCalls acc (DropboxPipeline.processFileDryRun u).2
        = DropboxPipeline.addCalls acc ⟨1, 0, 0⟩ from by rw [processFileDryRun_calls u]]
    rw [ih (DropboxPipeline.addCalls acc ⟨1, 0, 0⟩)]
    simp [DropboxPipeline.addCalls]
    omega

theorem dryRun_allOk_length (units : List DropboxPipeline.UnitOutcome)
    (h : ∀ u ∈ units, exIsOk u.listing = true) :
    ((units.map DropboxPipeline.processFileDryRun).filterMap (fun s => s.1)).length
      = units.length := by
  induction units with
  | nil => rfl
  | cons u us ih =>
    simp only [List.map_cons, List.filterMap_cons]
    have hu := h u (by simp)
    rcases hl : u.listing with e | lc
    · rw [hl] at hu
      simp [exIsOk] at hu
    · have hsome : (DropboxPipeline.processFileDryRun u).1 = some ⟨u.word, lc⟩ := by
        unfold DropboxPipeline.processFileDryRun
        rw [hl]
      rw [hsome]
      simp only [List.length_cons]
      rw [ih (fun v hv => h v (by simp [hv]))]

/-- Claim C6 amended: in dry-run mode the pipeline issues no Printful and
no Dropbox calls and still prints a complete summary over all input units
(exit code 0, succeeded and failed counts summing to the number of units;
with every listing call succeeding the summary is processed n, succeeded n,
failed 0) — but it still issues one real completion-endpoint call per unit,
because `generateListing` runs before the dry-run short-circuit. -/
theorem dry_run_summary (units : List DropboxPipeline.UnitOutcome) :
    (DropboxPipeline.mainDryRun units).exitCode = 0
  ∧ (DropboxPipeline.mainDryRun units).calls.printful = 0
  ∧ (DropboxPipeline.mainDryRun units).calls.dropbox = 0
  ∧ (DropboxPipeline.mainDryRun units).calls.openrouter = units.length
  ∧ (DropboxPipeline.mainDryRun units).found = units.length
  ∧ (DropboxPipeline.mainDryRun units).processedLine
      + (DropboxPipeline.mainDryRun units).failedLine = units.length
  ∧ ((∀ u ∈ units, exIsOk u.listing = true) →
      (DropboxPipeline.mainDryRun units).processedLine = units.length
        ∧ (DropboxPipeline.mainDryRun units).failedLine = 0) := by
  have hfold := dryRun_foldCalls units ⟨0, 0, 0⟩
  have hle : ((units.map DropboxPipeline.processFileDryRun).filterMap (fun s => s.1)).length
      ≤ units.length := by
    calc ((units.map DropboxPipeline.processFileDryRun).filterMap (fun s => s.1)).length
        ≤ (units.map DropboxPipeline.processFileDryRun).length := List.length_filterMap_le _ _
      _ = units.length := List.length_map _ _
  refine ⟨rfl, ?_, ?_, ?_, rfl, ?_, ?_⟩
  · show ((units.map DropboxPipeline.processFileDryRun).foldl
      (fun a s => DropboxPipeline.addCalls a s.2) ⟨0, 0, 0⟩).printful = 0
    rw [hfold]
  · show ((units.map DropboxPipeline.processFileDryRun).foldl
      (fun a s => DropboxPipeline.addCalls a s.2) ⟨0, 0, 0⟩).dropbox = 0
    rw [hfold]
  · show ((units.map DropboxPipeline.processFileDryRun).foldl
      (fun a s => DropboxPipeline.addCalls a s.2) ⟨0, 0, 0⟩).openrouter = units.length
    rw [hfold]
    simp
  · show ((units.map DropboxPipeline.processFileDryRun).filterMap (fun s => s.1)).length
      + (units.length
        - ((units.map DropboxPipeline.processFileDryRun).filterMap (fun s => s.1)).length)
      = units.length
    omega
  · intro h
    have hn := dryRun_allOk_length units h
    constructor
    · exact hn
    · show units.length
        - ((units.map DropboxPipeline.processFileDryRun).filterMap (fun s => s.1)).length = 0
      omega

theorem dry_run_summary_witness :
    (∀ u ∈ ([⟨"PONZU", .ok ⟨"t", "d", ["x"]⟩⟩] : List DropboxPipeline.UnitOutcome),
      exIsOk u.listing = true)
  ∧ (DropboxPipeline.mainDryRun [⟨"PONZU", .ok ⟨"t", "d", ["x"]⟩⟩]).calls.printful = 0
  ∧ (DropboxPipeline.mainDryRun [⟨"PONZU", .ok ⟨"t", "d", ["x"]⟩⟩]).processedLine = 1 := by
  refine ⟨by decide, ?_, ?_⟩
  · exact (dry_run_summary _).2.1
  · exact ((dry_run_summary _).2.2.2.2.2.2 (by decide)).1

/-- Claim C10 counterexample: on the message `hello` — no brace span, not
valid JSON, no extractable fields — both JSON parse passes fail and the
generator returns a success carrying the partially-empty content object
(empty word, title, emojis, description and an empty tag list) instead of
failing with a malformed-content error. -/
theorem parse_chain_counterexample :
    parseListingMessage "TACO" "hello"
      = .ok (.objJ [("word", .strJ ""), ("title", .strJ ""), ("emojis", .strJ ""),
                    ("description", .strJ ""), ("tags", .arrJ [])])
  ∧ tierOne "hello" = none
  ∧ jsParse "hello" = none := by
  exact ⟨rfl, rfl, rfl⟩

/-- Claim C10 amended: the generator tries `JSON.parse` on the cleaned,
brace-extracted span first, then `JSON.parse` on the raw message; when both
JSON passes fail, it falls back to regex field extraction and returns the
resulting — possibly partially-empty — content object as a success rather
than failing with a malformed-content error.  (The single-tier sibling in
src/generateListingFromOpenRouter.js has no tolerant pass at all: it
rethrows the parse error.) -/
theorem parse_chain_fallback (word m : String) (h1 : tierOne m = none)
    (h2 : jsParse m = none) :
    parseListingMessage word m = .ok (manualExtract word m)
  ∧ parseListingStrict m = .error "Failed to parse JSON" := by
  constructor
  · unfold parseListingMessage
    rw [h1, h2]
  · unfold parseListingStrict
    rw [h2]

theorem parse_chain_fallback_witness :
    tierOne "hola" = none
  ∧ jsParse "hola" = none
  ∧ parseListingMessage "MOLE" "hola" = .ok (manualExtract "MOLE" "hola") := by
  refine ⟨rfl, rfl, ?_⟩
  exact (parse_chain_fallback "MOLE" "hola" rfl rfl).1
